import Mathlib

/-
Verification of the `log_laplace` logging facility
(`src/log_laplace/log_lhc.py`) against its specification.

The Python module provides a process-wide singleton logger (`LoggerLHC`)
with two handlers on the root logger (a file handler and a console
handler, each with its own level), plus a stream shim (`StreamToLogger`)
installed over `sys.stdout` / `sys.stderr`, and a module-level shortcut
object `log` backed by `_log_func`.

We embed the module as pure functions over an explicit `World` state:
  - the two `sys` stream slots (`sys.stdout`, `sys.stderr`),
  - the root logger's level and handler list,
  - the published singleton `_logger_instance`,
  - observable output: text written to the real terminal's stdout and
    stderr, and lines appended to log files.
Timestamps are threaded as an opaque string parameter `t` (the value
`%(asctime)s` would format to).  Filesystem paths are strings joined
with "/", matching `pathlib.Path`'s `/` operator on the concrete
components used here.
-/

namespace LogLaplace

/-- Numeric level constants of Python's `logging` module. -/
def DEBUG : Nat := 10

/-- logging.INFO -/
def INFO : Nat := 20

/-- logging.WARNING -/
def WARNING : Nat := 30

/-- logging.ERROR -/
def ERROR : Nat := 40

/-- The two real terminal channels of the process (`sys.__stdout__`
and `sys.__stderr__` in Python: the original streams, never reassigned). -/
inductive Channel
  | stdout
  | stderr
deriving DecidableEq, Repr

/-- A value held in a `sys.stdout` / `sys.stderr` slot: either an original
OS stream object, or a `StreamToLogger` shim.  The shim stores the name of
the logger it writes records through (`self.logger`) and the stream object
it passes raw text through to (`self.stream`); in the source the latter is
always one of the original channels. -/
inductive StreamVal
  | orig (c : Channel)
  | shim (loggerName : String) (stream : Channel)
deriving DecidableEq, Repr

/-- The sink-specific part of a `logging` handler: a `FileHandler` with its
target path, or a `StreamHandler` with the stream object it was constructed
with (`logging.StreamHandler(sys.stdout)` captures the object held by
`sys.stdout` at construction time). -/
inductive HandlerKind
  | file (path : String)
  | console (stream : StreamVal)
deriving DecidableEq, Repr

/-- A handler registered on the root logger: its kind and its level. -/
structure Handler where
  kind : HandlerKind
  level : Nat
deriving DecidableEq, Repr

/-- Attributes published by the singleton `LoggerLHC` instance
(`self.app_name`, `self.log_root`, `self.date_folder`, `self.log_file`). -/
structure Singleton where
  app_name : String
  log_root : String
  date_folder : String
  log_file : String
deriving DecidableEq, Repr

/-- The process-global state the module mutates, together with the
observable output produced so far.  `termOut`/`termErr` are the chunks
written to the real terminal's stdout/stderr; `fileLines` the
`(path, line)` pairs appended to log files.  `reentered` records whether a
handler ever wrote into a `StreamToLogger` shim (which would re-enter the
interceptor). -/
structure World where
  sysStdout : StreamVal
  sysStderr : StreamVal
  rootLevel : Nat
  handlers : List Handler
  singleton : Option Singleton
  termOut : List String
  termErr : List String
  fileLines : List (String × String)
  reentered : Bool
deriving DecidableEq, Repr

/-- The state at process start: original streams, root logger at its
default level WARNING with no handlers, no singleton, no output yet. -/
def w0 : World :=
  { sysStdout := .orig .stdout
    sysStderr := .orig .stderr
    rootLevel := WARNING
    handlers := []
    singleton := none
    termOut := []
    termErr := []
    fileLines := []
    reentered := false }

/-- A Python module attribute value, as far as `getattr(logging, ...)` can
return one here: a numeric level constant, a string constant, or a value
that is neither an int nor a str (the `_STYLES` dict). -/
inductive PyAttr
  | level (n : Nat)
  | str (s : String)
  | dict (name : String)
deriving DecidableEq, Repr

/-- The attributes of Python's `logging` module whose name equals its own
uppercase — the only names `getattr(logging, level.upper(), ...)` can
hit.  Eight are numeric level constants; `BASIC_FORMAT` is a format
string; `_STYLES` is a dict (neither int nor str). -/
def loggingUpperAttrs : List (String × PyAttr) :=
  [("CRITICAL", .level 50), ("FATAL", .level 50), ("ERROR", .level 40),
   ("WARNING", .level 30), ("WARN", .level 30), ("INFO", .level 20),
   ("DEBUG", .level 10), ("NOTSET", .level 0),
   ("BASIC_FORMAT", .str "%(levelname)s:%(name)s:%(message)s"),
   ("_STYLES", .dict "_STYLES")]

/-- Embedding of `getattr(logging, name, default)` for an uppercase
`name`. -/
def getattrLogging (name : String) (default : PyAttr) : PyAttr :=
  (loggingUpperAttrs.lookup name).getD default

/-- Embedding of `logging._nameToLevel`, the table `Handler.setLevel`
accepts string arguments from. -/
def nameToLevel : List (String × Nat) :=
  [("CRITICAL", 50), ("FATAL", 50), ("ERROR", 40), ("WARN", 30),
   ("WARNING", 30), ("INFO", 20), ("DEBUG", 10), ("NOTSET", 0)]

/-- Embedding of `logging._checkLevel`, as called by `Handler.setLevel`:
an int passes through; a string must name a level, otherwise
`ValueError("Unknown level: %r" % level)` is raised; any other value
(such as the `_STYLES` dict) raises
`TypeError("Level not an integer or a valid string: %r" % (level,))`. -/
def checkLevel : PyAttr → Except String Nat
  | .level n => .ok n
  | .str s =>
      match nameToLevel.lookup s with
      | some n => .ok n
      | none => .error ("Unknown level: " ++ "'" ++ s ++ "'")
  | .dict n => .error ("Level not an integer or a valid string: <" ++ n ++ ">")

/-- Embedding of `str.upper()`: character-wise uppercasing. -/
def pyUpper (s : String) : String :=
  ⟨s.toList.map Char.toUpper⟩

/-- Embedding of `str.lower()`: character-wise lowercasing. -/
def pyLower (s : String) : String :=
  ⟨s.toList.map Char.toLower⟩

/-- The level the file handler ends up with:
`fh.setLevel(getattr(logging, file_level.upper(), logging.DEBUG))`. -/
def parsedFileLevel (file_level : String) : Except String Nat :=
  checkLevel (getattrLogging (pyUpper file_level) (.level DEBUG))

/-- The level the console handler ends up with:
`ch.setLevel(getattr(logging, console_level.upper(), logging.INFO))`. -/
def parsedConsoleLevel (console_level : String) : Except String Nat :=
  checkLevel (getattrLogging (pyUpper console_level) (.level INFO))

/-- The fixed record template
`"%(asctime)s [%(levelname)s] [%(name)s] %(message)s"`. -/
def formatRecord (t levelname name msg : String) : String :=
  t ++ " [" ++ levelname ++ "] [" ++ name ++ "] " ++ msg

/-- Embedding of `logging.getLevelName` restricted to the numeric levels
that occur here. -/
def getLevelName : Nat → String
  | 50 => "CRITICAL"
  | 40 => "ERROR"
  | 30 => "WARNING"
  | 20 => "INFO"
  | 10 => "DEBUG"
  | 0 => "NOTSET"
  | n => "Level " ++ toString n

/-- Raw write of a chunk to a real terminal channel. -/
def writeChannel (c : Channel) (s : String) (w : World) : World :=
  match c with
  | .stdout => { w with termOut := w.termOut ++ [s] }
  | .stderr => { w with termErr := w.termErr ++ [s] }

/-- One handler processing a record (name, numeric level `s`, message) at
time `t`: emit the formatted line iff `s ≥ handler.level`.  A
`StreamHandler` writes the line plus its terminator `"\n"` to the stream
object it captured; writing into a shim would re-enter the interceptor and
is recorded in `reentered`. -/
def emitHandler (t name : String) (s : Nat) (msg : String)
    (w : World) (h : Handler) : World :=
  if h.level ≤ s then
    match h.kind with
    | .file p =>
        { w with fileLines := w.fileLines ++ [(p, formatRecord t (getLevelName s) name msg)] }
    | .console sv =>
        match sv with
        | .orig c => writeChannel c (formatRecord t (getLevelName s) name msg ++ "\n") w
        | .shim _ _ => { w with reentered := true }
  else w

/-- A record of numeric level `s` emitted through a logger whose effective
level is the root's (the named logger `getLogger(app_name)` is never given
its own level, so it inherits the root's; records propagate to the root's
handlers).  The record is dispatched to every handler whose level it
clears. -/
def loggerLog (t name : String) (s : Nat) (msg : String) (w : World) : World :=
  if w.rootLevel ≤ s then w.handlers.foldl (emitHandler t name s msg) w else w

/-- Python whitespace characters stripped by `str.rstrip()` (the ASCII
ones; the source only ever strips print chunks). -/
def isPyWhitespace (c : Char) : Bool :=
  c = ' ' || c = '\t' || c = '\n' || c = '\r' ||
    c = Char.ofNat 11 || c = Char.ofNat 12

/-- Embedding of `message.rstrip()`. -/
def pyRstrip (s : String) : String :=
  ⟨(s.toList.reverse.dropWhile isPyWhitespace).reverse⟩

/-- Embedding of `StreamToLogger.__init__(self, logger, stream=None)`:
`self.stream = stream or sys.__stdout__` — when no stream argument is
passed the shim's pass-through target is the original stdout. -/
def StreamToLogger_init (loggerName : String) (stream : Option Channel) : StreamVal :=
  .shim loggerName (stream.getD .stdout)

/-- Embedding of `StreamToLogger.write(self, message)` when the slot holds
a shim: rstrip; discard if empty; otherwise write the trimmed text plus a
newline to the shim's captured stream and flush, then
`self.logger.info(message)` through the root logger (whose name is
"root").  When the slot still holds an original stream, a write is the
plain OS write. -/
def streamWrite (t : String) (sv : StreamVal) (message : String) (w : World) : World :=
  match sv with
  | .orig c => writeChannel c message w
  | .shim loggerName c =>
      let m := pyRstrip message
      if m = "" then w
      else
        let w1 := writeChannel c (m ++ "\n") w
        loggerLog t loggerName INFO m w1

/-- A write arriving at whatever object currently sits in `sys.stdout`. -/
def sysStdoutWrite (t message : String) (w : World) : World :=
  streamWrite t w.sysStdout message w

/-- A write arriving at whatever object currently sits in `sys.stderr`. -/
def sysStderrWrite (t message : String) (w : World) : World :=
  streamWrite t w.sysStderr message w

/-- Embedding of `LoggerLHC._setup_handlers(file_level, console_level)`:
build the file handler on `self.log_file` with the parsed file level, add
it to the root logger; build the console handler on the object currently
held by `sys.stdout` with the parsed console level, add it to the root
logger.  `setLevel` may raise (propagated as `Except.error`). -/
def setup_handlers (log_file file_level console_level : String)
    (w : World) : Except String World := do
  let fl ← parsedFileLevel file_level
  let w1 := { w with handlers := w.handlers ++ [Handler.mk (.file log_file) fl] }
  let cl ← parsedConsoleLevel console_level
  pure { w1 with handlers := w1.handlers ++ [Handler.mk (.console w1.sysStdout) cl] }

/-- Embedding of `LoggerLHC._capture_prints()`:
`sys.stdout = StreamToLogger(self.root_logger)` and
`sys.stderr = StreamToLogger(self.root_logger)` — both constructed with no
stream argument. -/
def capture_prints (w : World) : World :=
  { w with
      sysStdout := StreamToLogger_init "root" none
      sysStderr := StreamToLogger_init "root" none }

/-- Embedding of `self.log_root = Path(log_root or Path.cwd()) / "logs"`:
a falsy `log_root` (absent, or the empty string) is replaced by the
current working directory (`cwd`, passed in), and the component `"logs"`
is appended. -/
def computedLogRoot (log_root : Option String) (cwd : String) : String :=
  (match log_root with
   | none => cwd
   | some s => if s = "" then cwd else s) ++ "/logs"

/-- Embedding of `LoggerLHC.__init__(app_name, log_root=None,
file_level="debug", console_level="info")` acting on the globals.  If the
singleton exists, return immediately.  Otherwise compute the log file
path, set the root logger's level to DEBUG, set up the two handlers,
capture prints, publish the singleton. -/
def LoggerLHC_init (w : World) (app_name : String) (log_root : Option String)
    (file_level console_level : String) (today cwd : String) :
    Except String World :=
  if w.singleton.isSome then .ok w
  else
    let root := computedLogRoot log_root cwd
    let date_folder := root ++ "/" ++ today
    let log_file := date_folder ++ "/" ++ app_name ++ ".log"
    let w1 := { w with rootLevel := DEBUG }
    (setup_handlers log_file file_level console_level w1).map fun w2 =>
      { capture_prints w2 with
          singleton := some ⟨app_name, root, date_folder, log_file⟩ }

/-- Embedding of the facade method `LoggerLHC.debug`: `self.logger` is
`logging.getLogger(app_name)`, so the record's source name is the app
name. -/
def LoggerLHC.debug (t : String) (sg : Singleton) (msg : String) (w : World) : World :=
  loggerLog t sg.app_name DEBUG msg w

/-- Facade method `LoggerLHC.info`. -/
def LoggerLHC.info (t : String) (sg : Singleton) (msg : String) (w : World) : World :=
  loggerLog t sg.app_name INFO msg w

/-- Facade method `LoggerLHC.warning`. -/
def LoggerLHC.warning (t : String) (sg : Singleton) (msg : String) (w : World) : World :=
  loggerLog t sg.app_name WARNING msg w

/-- Facade method `LoggerLHC.error`. -/
def LoggerLHC.error (t : String) (sg : Singleton) (msg : String) (w : World) : World :=
  loggerLog t sg.app_name ERROR msg w

/-- The message of the `RuntimeError` raised by `_log_func` when no
singleton exists. -/
def notInitializedMsg : String :=
  "Logger not initialized! Call LoggerLHC(app_name, ...) first."

/-- Embedding of the module function `_log_func(msg, level="info")`:
raise if no singleton; otherwise lower-case the level string and dispatch
to the singleton's same-named method, defaulting to `info`. -/
def log_func (t msg level : String) (w : World) : Except String World :=
  match w.singleton with
  | none => .error notInitializedMsg
  | some sg =>
      let l := pyLower level
      .ok (if l = "debug" then LoggerLHC.debug t sg msg w
           else if l = "warning" then LoggerLHC.warning t sg msg w
           else if l = "error" then LoggerLHC.error t sg msg w
           else LoggerLHC.info t sg msg w)

/-- Shortcut `log.info(msg)` of the module-level `_LogHelper` object. -/
def LogHelper.info (t msg : String) (w : World) : Except String World :=
  log_func t msg "info" w

/-- Shortcut `log.debug(msg)`. -/
def LogHelper.debug (t msg : String) (w : World) : Except String World :=
  log_func t msg "debug" w

/-- Shortcut `log.warning(msg)`. -/
def LogHelper.warning (t msg : String) (w : World) : Except String World :=
  log_func t msg "warning" w

/-- Shortcut `log.error(msg)`. -/
def LogHelper.error (t msg : String) (w : World) : Except String World :=
  log_func t msg "error" w

/-- The stream objects captured by the console handlers among a handler
list. -/
def consoleStreams (hs : List Handler) : List StreamVal :=
  hs.filterMap fun h =>
    match h.kind with
    | .console sv => some sv
    | .file _ => none

/-- The target paths of the file handlers among a handler list. -/
def fileHandlerPaths (hs : List Handler) : List String :=
  hs.filterMap fun h =>
    match h.kind with
    | .file p => some p
    | .console _ => none

/-- The log file path a first initialization computes:
`log_root (or cwd) / "logs" / today / app_name ++ ".log"`. -/
def logFileOf (app : String) (lr : Option String) (today cwd : String) : String :=
  computedLogRoot lr cwd ++ "/" ++ today ++ "/" ++ app ++ ".log"

/-- The state a first initialization from the fresh start state reaches
when the two level strings parse to numeric levels `F` and `C`. -/
def initedWorld (app : String) (lr : Option String) (F C : Nat)
    (today cwd : String) : World :=
  { sysStdout := .shim "root" .stdout
    sysStderr := .shim "root" .stdout
    rootLevel := DEBUG
    handlers := [Handler.mk (.file (logFileOf app lr today cwd)) F,
                 Handler.mk (.console (.orig .stdout)) C]
    singleton := some ⟨app, computedLogRoot lr cwd,
                       computedLogRoot lr cwd ++ "/" ++ today,
                       logFileOf app lr today cwd⟩
    termOut := []
    termErr := []
    fileLines := []
    reentered := false }

/-- Running `LoggerLHC.__init__` on the fresh start state succeeds when
both level strings parse, and produces exactly `initedWorld`. -/
theorem LoggerLHC_init_ok (app fl cl today cwd : String) (lr : Option String)
    (F C : Nat) (hF : parsedFileLevel fl = Except.ok F)
    (hC : parsedConsoleLevel cl = Except.ok C) :
    LoggerLHC_init w0 app lr fl cl today cwd =
      Except.ok (initedWorld app lr F C today cwd) := by
  simp [LoggerLHC_init, w0, setup_handlers, hF, hC, capture_prints,
        StreamToLogger_init, initedWorld, logFileOf, Except.map, bind, Except.bind,
        pure, Except.pure]

/-- Emitting a record that clears the root level through the initialized
state: the file sink persists it iff it clears `F`; the console sink
writes it to the real terminal's stdout iff it clears `C`; nothing else
changes. -/
theorem loggerLog_inited (app t name msg today cwd : String)
    (lr : Option String) (F C s : Nat) (hs : DEBUG ≤ s) :
    loggerLog t name s msg (initedWorld app lr F C today cwd) =
      { initedWorld app lr F C today cwd with
          fileLines :=
            if F ≤ s then
              [(logFileOf app lr today cwd, formatRecord t (getLevelName s) name msg)]
            else []
          termOut :=
            if C ≤ s then [formatRecord t (getLevelName s) name msg ++ "\n"]
            else [] } := by
  simp only [loggerLog, initedWorld, DEBUG] at *
  rw [if_pos hs]
  simp only [List.foldl, emitHandler, writeChannel]
  split_ifs with h1 h2 h2 <;> simp

/-- Emitting a record through any state whose root logger holds exactly
the file handler and the console handler on the original stdout (in that
order): the record is appended to the file iff it clears `F`, to the
terminal's stdout iff it clears `C`. -/
theorem loggerLog_two_handlers (t name msg P : String) (s F C : Nat) (w : World)
    (hh : w.handlers = [Handler.mk (.file P) F,
                        Handler.mk (.console (.orig .stdout)) C])
    (hroot : w.rootLevel ≤ s) :
    loggerLog t name s msg w =
      { w with
          fileLines := w.fileLines ++
            (if F ≤ s then [(P, formatRecord t (getLevelName s) name msg)] else [])
          termOut := w.termOut ++
            (if C ≤ s then [formatRecord t (getLevelName s) name msg ++ "\n"] else []) } := by
  obtain ⟨so, se, rl, hl, sg, tOut, tErr, flns, re⟩ := w
  simp only at hh hroot
  subst hh
  rw [loggerLog, if_pos hroot]
  simp only [List.foldl, emitHandler, writeChannel]
  split_ifs with h1 h2 h2 <;> simp

/-- Scenario used by several claims: the world produced by the first
initialization `LoggerLHC("app", "/tmp/x")` with the default levels
(file "debug", console "info") on 2026-10-12. -/
def c1World : World :=
  initedWorld "app" (some "/tmp/x") DEBUG INFO "2026-10-12" "/cwd"

/-- The state after the intercepted `sys.stdout` receives
`write("hello\n")` in that scenario. -/
def c1After : World :=
  sysStdoutWrite "2026-10-12 10:00:00" "hello\n" c1World

/-- C1: claimed — writing "hello" to the intercepted stdout with both
thresholds at or below INFO yields exactly one terminal line and one file
record, the text never appearing twice on the console.  The code violates
this: the shim logs through the root logger, whose handlers include the
console handler, so the text reaches the terminal twice — once as the raw
echo and once as the formatted record — while the file gets one record.
This theorem evaluates the code at the failing input. -/
theorem C1_captured_write_hits_console_twice :
    LoggerLHC_init w0 "app" (some "/tmp/x") "debug" "info" "2026-10-12" "/cwd"
      = Except.ok c1World
    ∧ c1After.termOut =
        ["hello\n", "2026-10-12 10:00:00 [INFO] [root] hello\n"]
    ∧ (c1After.termOut.filter fun l => decide ("hello".toList <:+: l.toList)).length = 2
    ∧ c1After.fileLines =
        [("/tmp/x/logs/2026-10-12/app.log",
          "2026-10-12 10:00:00 [INFO] [root] hello")] :=
  ⟨rfl, rfl, by decide, rfl⟩

/-- C2: once a singleton exists, any later construction call — with any
arguments whatsoever — returns without error and leaves the whole world
(published singleton, attributes, handlers, stream slots, outputs)
exactly unchanged. -/
theorem C2_reinit_is_noop (w : World) (h : w.singleton.isSome = true)
    (app : String) (lr : Option String) (fl cl today cwd : String) :
    LoggerLHC_init w app lr fl cl today cwd = Except.ok w := by
  simp [LoggerLHC_init, h]

/-- Witness for C2: re-initializing the scenario state with entirely
different arguments changes nothing. -/
theorem C2_reinit_is_noop_witness :
    LoggerLHC_init c1World "other" (some "/elsewhere") "warning" "error"
      "2030-01-01" "/c2" = Except.ok c1World :=
  C2_reinit_is_noop c1World rfl "other" (some "/elsewhere") "warning" "error"
    "2030-01-01" "/c2"

/-- Dispatch from a numeric severity to the facade's same-named leveled
method. -/
def levelMethod (s : Nat) (t : String) (sg : Singleton) (msg : String)
    (w : World) : World :=
  if s = DEBUG then LoggerLHC.debug t sg msg w
  else if s = INFO then LoggerLHC.info t sg msg w
  else if s = WARNING then LoggerLHC.warning t sg msg w
  else LoggerLHC.error t sg msg w

/-- C3: after a successful first initialization whose level strings parse
to file threshold `F` and console threshold `C`, a record emitted at any
severity `s` in {DEBUG, INFO, WARNING, ERROR} through the facade's
leveled methods reaches the file sink iff `s ≥ F` and the console sink
iff `s ≥ C`. -/
theorem C3_severity_threshold_routing (app fl cl today cwd t msg : String)
    (lr : Option String) (F C : Nat)
    (hF : parsedFileLevel fl = Except.ok F)
    (hC : parsedConsoleLevel cl = Except.ok C)
    (s : Nat) (hs : s = DEBUG ∨ s = INFO ∨ s = WARNING ∨ s = ERROR)
    (w : World) (hw : LoggerLHC_init w0 app lr fl cl today cwd = Except.ok w)
    (sg : Singleton) (hsg : w.singleton = some sg) :
    ((levelMethod s t sg msg w).fileLines ≠ [] ↔ F ≤ s)
    ∧ ((levelMethod s t sg msg w).termOut ≠ [] ↔ C ≤ s) := by
  rw [LoggerLHC_init_ok app fl cl today cwd lr F C hF hC] at hw
  injection hw with h
  subst h
  have hroot : (initedWorld app lr F C today cwd).rootLevel ≤ s := by
    rcases hs with rfl | rfl | rfl | rfl <;> simp [initedWorld, DEBUG, INFO, WARNING, ERROR]
  have hmeth : levelMethod s t sg msg (initedWorld app lr F C today cwd) =
      loggerLog t sg.app_name s msg (initedWorld app lr F C today cwd) := by
    rcases hs with rfl | rfl | rfl | rfl <;>
      simp [levelMethod, LoggerLHC.debug, LoggerLHC.info, LoggerLHC.warning,
            LoggerLHC.error, DEBUG, INFO, WARNING, ERROR]
  rw [hmeth, loggerLog_two_handlers t sg.app_name msg _ s F C _ rfl hroot]
  constructor <;> simp [initedWorld]

/-- Witness for C3: file level "debug" (10), console level "warning"
(30), severity INFO — the record lands in the file and not on the
console. -/
theorem C3_severity_threshold_routing_witness :
    ((levelMethod INFO "T"
        ⟨"svc", "/r/logs", "/r/logs/2026-10-12", "/r/logs/2026-10-12/svc.log"⟩ "m"
        (initedWorld "svc" (some "/r") DEBUG WARNING "2026-10-12" "/c")).fileLines ≠ []
      ↔ DEBUG ≤ INFO)
    ∧ ((levelMethod INFO "T"
        ⟨"svc", "/r/logs", "/r/logs/2026-10-12", "/r/logs/2026-10-12/svc.log"⟩ "m"
        (initedWorld "svc" (some "/r") DEBUG WARNING "2026-10-12" "/c")).termOut ≠ []
      ↔ WARNING ≤ INFO) :=
  C3_severity_threshold_routing "svc" "debug" "warning" "2026-10-12" "/c" "T" "m"
    (some "/r") DEBUG WARNING rfl rfl INFO (Or.inr (Or.inl rfl)) _ rfl _ rfl

/-- Reassociation step for path equalities: appending the component
"/logs" and then "/" is appending "/logs/". -/
theorem append_logs_slash (X : String) : "/logs" ++ ("/" ++ X) = "/logs/" ++ X := by
  rw [← String.append_assoc]
  rfl

/-- C4 counterexample: initializing with explicit log root "/tmp/x" and
app name "app" on 2026-10-12 makes the log file
"/tmp/x/logs/2026-10-12/app.log" — a "logs" component is inserted — and
not the claimed "/tmp/x/2026-10-12/app.log". -/
theorem C4_logfile_counterexample :
    (LoggerLHC_init w0 "app" (some "/tmp/x") "debug" "info" "2026-10-12" "/cwd").map
        (fun w => w.singleton.map Singleton.log_file)
      = Except.ok (some "/tmp/x/logs/2026-10-12/app.log")
    ∧ ("/tmp/x/logs/2026-10-12/app.log" : String) ≠ "/tmp/x/2026-10-12/app.log" :=
  ⟨rfl, by decide⟩

/-- C4 amended: for every successful first initialization with app name
`app` and non-empty explicit log root `r`, the published log file path is
exactly `r/logs/<today>/<app>.log`, and the file handler targets exactly
that path. -/
theorem C4_logfile_path (app fl cl today cwd r : String) (hr : r ≠ "")
    (F C : Nat) (hF : parsedFileLevel fl = Except.ok F)
    (hC : parsedConsoleLevel cl = Except.ok C)
    (w : World) (hw : LoggerLHC_init w0 app (some r) fl cl today cwd = Except.ok w)
    (sg : Singleton) (hsg : w.singleton = some sg) :
    sg.log_file = r ++ "/logs/" ++ today ++ "/" ++ app ++ ".log"
    ∧ fileHandlerPaths w.handlers = [sg.log_file] := by
  rw [LoggerLHC_init_ok app fl cl today cwd (some r) F C hF hC] at hw
  injection hw with h
  subst h
  simp only [initedWorld] at hsg
  injection hsg with h2
  subst h2
  constructor
  · simp [logFileOf, computedLogRoot, if_neg hr, String.append_assoc, append_logs_slash]
  · simp [fileHandlerPaths, initedWorld, logFileOf]

/-- Witness for C4 (amended): concrete instantiation with root "/r" and
app "svc". -/
theorem C4_logfile_path_witness :
    (Singleton.mk "svc" "/r/logs" "/r/logs/2026-10-12"
        "/r/logs/2026-10-12/svc.log").log_file
      = "/r" ++ "/logs/" ++ "2026-10-12" ++ "/" ++ "svc" ++ ".log"
    ∧ fileHandlerPaths
        (initedWorld "svc" (some "/r") DEBUG INFO "2026-10-12" "/c").handlers
      = [(Singleton.mk "svc" "/r/logs" "/r/logs/2026-10-12"
            "/r/logs/2026-10-12/svc.log").log_file] :=
  C4_logfile_path "svc" "debug" "info" "2026-10-12" "/c" "/r" (by decide)
    DEBUG INFO rfl rfl _ rfl _ rfl

/-- C5: a shortcut call (`log.info` and friends) while no singleton
exists raises the RuntimeError "Logger not initialized! ..."; after a
successful initialization it raises nothing and forwards the message to
the singleton's same-named leveled method. -/
theorem C5_shortcut_dispatch (t msg : String) (w : World) :
    (w.singleton = none →
      LogHelper.info t msg w = Except.error notInitializedMsg
      ∧ LogHelper.debug t msg w = Except.error notInitializedMsg
      ∧ LogHelper.warning t msg w = Except.error notInitializedMsg
      ∧ LogHelper.error t msg w = Except.error notInitializedMsg)
    ∧ ∀ sg, w.singleton = some sg →
      LogHelper.info t msg w = Except.ok (LoggerLHC.info t sg msg w)
      ∧ LogHelper.debug t msg w = Except.ok (LoggerLHC.debug t sg msg w)
      ∧ LogHelper.warning t msg w = Except.ok (LoggerLHC.warning t sg msg w)
      ∧ LogHelper.error t msg w = Except.ok (LoggerLHC.error t sg msg w) := by
  constructor
  · intro h
    refine ⟨?_, ?_, ?_, ?_⟩ <;>
      simp [LogHelper.info, LogHelper.debug, LogHelper.warning, LogHelper.error,
            log_func, h]
  · intro sg h
    refine ⟨?_, ?_, ?_, ?_⟩ <;>
      simp only [LogHelper.info, LogHelper.debug, LogHelper.warning,
                 LogHelper.error, log_func, h]
    · rw [if_neg (by decide), if_neg (by decide), if_neg (by decide)]
    · rw [if_pos (by decide)]
    · rw [if_neg (by decide), if_pos (by decide)]
    · rw [if_neg (by decide), if_neg (by decide), if_pos (by decide)]

/-- Witness for C5: the warning shortcut errors on the fresh state and
forwards on the initialized scenario state. -/
theorem C5_shortcut_dispatch_witness :
    LogHelper.warning "T" "m" w0 = Except.error notInitializedMsg
    ∧ LogHelper.warning "T" "m" c1World =
        Except.ok (LoggerLHC.warning "T"
          ⟨"app", "/tmp/x/logs", "/tmp/x/logs/2026-10-12",
            "/tmp/x/logs/2026-10-12/app.log"⟩ "m" c1World) :=
  ⟨((C5_shortcut_dispatch "T" "m" w0).1 rfl).2.2.1,
   (((C5_shortcut_dispatch "T" "m" c1World).2 _ rfl)).2.2.1⟩

/-- Writing a chunk whose trimmed text is non-empty through a shim whose
pass-through stream is the original stdout, in the initialized state: the
trimmed text plus a newline is echoed to the terminal's stdout, then the
root logger's INFO record is persisted to the file iff INFO clears `F`
and written to the terminal's stdout a second time iff INFO clears `C`. -/
theorem streamWrite_shim_inited (app t m today cwd : String) (lr : Option String)
    (F C : Nat) (hm : pyRstrip m ≠ "") :
    streamWrite t (StreamVal.shim "root" .stdout) m
        (initedWorld app lr F C today cwd) =
      { initedWorld app lr F C today cwd with
          termOut := [pyRstrip m ++ "\n"] ++
            (if C ≤ INFO then
              [formatRecord t (getLevelName INFO) "root" (pyRstrip m) ++ "\n"]
            else [])
          fileLines :=
            if F ≤ INFO then
              [(logFileOf app lr today cwd,
                formatRecord t (getLevelName INFO) "root" (pyRstrip m))]
            else [] } := by
  simp only [streamWrite]
  rw [if_neg hm]
  rw [loggerLog_two_handlers t "root" (pyRstrip m) (logFileOf app lr today cwd)
        INFO F C _ (by simp [writeChannel, initedWorld])
        (by simp [writeChannel, initedWorld, DEBUG, INFO])]
  simp [writeChannel, initedWorld]

/-- C6 counterexample: after initialization, the shim installed in the
stderr slot passes through to the ORIGINAL STDOUT (because
`StreamToLogger.__init__` defaults its stream to `sys.__stdout__`): a
captured stderr write echoes onto the terminal's stdout and nothing ever
reaches the terminal's stderr, refuting "the stderr shim's pass-through
writes go to the original stderr". -/
theorem C6_stderr_shim_counterexample :
    c1World.sysStderr = StreamVal.shim "root" Channel.stdout
    ∧ StreamVal.shim "root" Channel.stdout ≠ StreamVal.shim "root" Channel.stderr
    ∧ (sysStderrWrite "T" "oops\n" c1World).termErr = []
    ∧ (sysStderrWrite "T" "oops\n" c1World).termOut.head? = some "oops\n" :=
  ⟨rfl, by decide, rfl, rfl⟩

/-- C6 amended: after a successful first initialization both stream slots
hold a shim (each replaced exactly once, having started as the original
channels), and BOTH shims pass writes through to the original stdout: in
particular the stderr shim's pass-through writes go to the original
stdout, not the original stderr. -/
theorem C6_shim_passthrough (app fl cl today cwd t m : String)
    (lr : Option String) (F C : Nat)
    (hF : parsedFileLevel fl = Except.ok F)
    (hC : parsedConsoleLevel cl = Except.ok C)
    (w : World) (hw : LoggerLHC_init w0 app lr fl cl today cwd = Except.ok w)
    (hm : pyRstrip m ≠ "") :
    w0.sysStdout = StreamVal.orig Channel.stdout
    ∧ w0.sysStderr = StreamVal.orig Channel.stderr
    ∧ w.sysStdout = StreamVal.shim "root" Channel.stdout
    ∧ w.sysStderr = StreamVal.shim "root" Channel.stdout
    ∧ (sysStdoutWrite t m w).termOut.head? = some (pyRstrip m ++ "\n")
    ∧ (sysStderrWrite t m w).termOut.head? = some (pyRstrip m ++ "\n")
    ∧ (sysStderrWrite t m w).termErr = w.termErr := by
  rw [LoggerLHC_init_ok app fl cl today cwd lr F C hF hC] at hw
  injection hw with h
  subst h
  have eo : sysStdoutWrite t m (initedWorld app lr F C today cwd) =
      streamWrite t (StreamVal.shim "root" .stdout) m
        (initedWorld app lr F C today cwd) := rfl
  have ee : sysStderrWrite t m (initedWorld app lr F C today cwd) =
      streamWrite t (StreamVal.shim "root" .stdout) m
        (initedWorld app lr F C today cwd) := rfl
  refine ⟨rfl, rfl, rfl, rfl, ?_, ?_, ?_⟩ <;>
    simp only [eo, ee, streamWrite_shim_inited app t m today cwd lr F C hm] <;>
    simp [initedWorld]

/-- Witness for C6 (amended): concrete instantiation on the scenario
state with a captured stderr write. -/
theorem C6_shim_passthrough_witness :
    w0.sysStdout = StreamVal.orig Channel.stdout
    ∧ w0.sysStderr = StreamVal.orig Channel.stderr
    ∧ c1World.sysStdout = StreamVal.shim "root" Channel.stdout
    ∧ c1World.sysStderr = StreamVal.shim "root" Channel.stdout
    ∧ (sysStdoutWrite "T" "x\n" c1World).termOut.head? = some (pyRstrip "x\n" ++ "\n")
    ∧ (sysStderrWrite "T" "x\n" c1World).termOut.head? = some (pyRstrip "x\n" ++ "\n")
    ∧ (sysStderrWrite "T" "x\n" c1World).termErr = c1World.termErr :=
  C6_shim_passthrough "app" "debug" "info" "2026-10-12" "/cwd" "T" "x\n"
    (some "/tmp/x") DEBUG INFO rfl rfl c1World rfl (by decide)

/-- C7: for every non-empty captured write to the intercepted stdout or
stderr, the trimmed text always reaches the real terminal (as the echo,
the first chunk written) regardless of the configured console threshold
`C`, while the persisted copy appears in the log file iff INFO clears the
configured file threshold `F`. -/
theorem C7_echo_unconditional_file_gated (app fl cl today cwd t m : String)
    (lr : Option String) (F C : Nat)
    (hF : parsedFileLevel fl = Except.ok F)
    (hC : parsedConsoleLevel cl = Except.ok C)
    (w : World) (hw : LoggerLHC_init w0 app lr fl cl today cwd = Except.ok w)
    (hm : pyRstrip m ≠ "") :
    ((sysStdoutWrite t m w).termOut.head? = some (pyRstrip m ++ "\n"))
    ∧ ((sysStdoutWrite t m w).fileLines ≠ [] ↔ F ≤ INFO)
    ∧ ((sysStderrWrite t m w).termOut.head? = some (pyRstrip m ++ "\n"))
    ∧ ((sysStderrWrite t m w).fileLines ≠ [] ↔ F ≤ INFO) := by
  rw [LoggerLHC_init_ok app fl cl today cwd lr F C hF hC] at hw
  injection hw with h
  subst h
  have eo : sysStdoutWrite t m (initedWorld app lr F C today cwd) =
      streamWrite t (StreamVal.shim "root" .stdout) m
        (initedWorld app lr F C today cwd) := rfl
  have ee : sysStderrWrite t m (initedWorld app lr F C today cwd) =
      streamWrite t (StreamVal.shim "root" .stdout) m
        (initedWorld app lr F C today cwd) := rfl
  refine ⟨?_, ?_, ?_, ?_⟩ <;>
    simp only [eo, ee, streamWrite_shim_inited app t m today cwd lr F C hm] <;>
    simp [initedWorld]

/-- Witness for C7: echo appears although the console threshold (ERROR)
suppresses every INFO record; the file copy appears since the file
threshold is DEBUG. -/
theorem C7_echo_unconditional_file_gated_witness :
    ((sysStdoutWrite "T" "hi\n"
        (initedWorld "svc" (some "/r") DEBUG ERROR "2026-10-12" "/c")).termOut.head?
      = some (pyRstrip "hi\n" ++ "\n"))
    ∧ ((sysStdoutWrite "T" "hi\n"
        (initedWorld "svc" (some "/r") DEBUG ERROR "2026-10-12" "/c")).fileLines ≠ []
      ↔ DEBUG ≤ INFO)
    ∧ ((sysStderrWrite "T" "hi\n"
        (initedWorld "svc" (some "/r") DEBUG ERROR "2026-10-12" "/c")).termOut.head?
      = some (pyRstrip "hi\n" ++ "\n"))
    ∧ ((sysStderrWrite "T" "hi\n"
        (initedWorld "svc" (some "/r") DEBUG ERROR "2026-10-12" "/c")).fileLines ≠ []
      ↔ DEBUG ≤ INFO) :=
  C7_echo_unconditional_file_gated "svc" "debug" "error" "2026-10-12" "/c" "T"
    "hi\n" (some "/r") DEBUG ERROR rfl rfl _ rfl (by decide)

/-- C8 counterexample: neither "basic_format" nor "_styles" names a
level, yet `getattr(logging, level.upper(), default)` finds the
`BASIC_FORMAT` format string (so `setLevel` raises
`ValueError("Unknown level: ...")`) respectively the `_STYLES` dict (so
`setLevel` raises `TypeError("Level not an integer or a valid string:
...")`) instead of silently falling back — for the file sink and for the
console sink alike. -/
theorem C8_nonlevel_attribute_counterexample :
    LoggerLHC_init w0 "app" (some "/r") "basic_format" "info" "2026-10-12" "/c"
      = Except.error "Unknown level: '%(levelname)s:%(name)s:%(message)s'"
    ∧ LoggerLHC_init w0 "app" (some "/r") "debug" "basic_format" "2026-10-12" "/c"
      = Except.error "Unknown level: '%(levelname)s:%(name)s:%(message)s'"
    ∧ LoggerLHC_init w0 "app" (some "/r") "_styles" "info" "2026-10-12" "/c"
      = Except.error "Level not an integer or a valid string: <_STYLES>"
    ∧ LoggerLHC_init w0 "app" (some "/r") "debug" "_styles" "2026-10-12" "/c"
      = Except.error "Level not an integer or a valid string: <_STYLES>" :=
  ⟨rfl, rfl, rfl, rfl⟩

/-- C8 amended: level parsing is case-insensitive (it depends only on the
uppercased string), and a string whose uppercase form names NO attribute
of the logging module silently falls back to DEBUG for the file sink and
INFO for the console sink; but a string resolving to one of logging's
non-level attributes raises an error instead — "basic_format" finds the
BASIC_FORMAT string and raises ValueError, "_styles" finds the _STYLES
dict and raises TypeError (see the counterexample) — and strings naming
logging's other level constants (WARN, CRITICAL, FATAL, NOTSET) resolve
to those levels rather than the defaults. -/
theorem C8_level_parse_fallback (s1 s2 u : String)
    (h12 : pyUpper s1 = pyUpper s2)
    (hu : loggingUpperAttrs.lookup (pyUpper u) = none) :
    (parsedFileLevel s1 = parsedFileLevel s2
      ∧ parsedConsoleLevel s1 = parsedConsoleLevel s2)
    ∧ parsedFileLevel u = Except.ok DEBUG
    ∧ parsedConsoleLevel u = Except.ok INFO := by
  refine ⟨⟨?_, ?_⟩, ?_, ?_⟩
  · simp [parsedFileLevel, getattrLogging, h12]
  · simp [parsedConsoleLevel, getattrLogging, h12]
  · simp [parsedFileLevel, getattrLogging, hu, checkLevel]
  · simp [parsedConsoleLevel, getattrLogging, hu, checkLevel]

/-- Witness for C8 (amended): "DeBuG" and "dEbUg" parse identically, and
the unrecognized "verbose" falls back to DEBUG / INFO. -/
theorem C8_level_parse_fallback_witness :
    (parsedFileLevel "DeBuG" = parsedFileLevel "dEbUg"
      ∧ parsedConsoleLevel "DeBuG" = parsedConsoleLevel "dEbUg")
    ∧ parsedFileLevel "verbose" = Except.ok DEBUG
    ∧ parsedConsoleLevel "verbose" = Except.ok INFO :=
  C8_level_parse_fallback "DeBuG" "dEbUg" "verbose" (by decide) (by decide)

/-- C9: writing an empty string, or a string of only whitespace and
newlines, to the intercepted stdout is a complete no-op: the world —
including the terminal output and all log records — is unchanged. -/
theorem C9_blank_write_discarded (t lg m : String) (c : Channel) (w : World)
    (hshim : w.sysStdout = StreamVal.shim lg c) (hm : pyRstrip m = "") :
    sysStdoutWrite t m w = w := by
  rw [sysStdoutWrite, hshim]
  simp [streamWrite, hm]

/-- Witness for C9: a whitespace-and-newline chunk written to the
intercepted stdout of the scenario state changes nothing. -/
theorem C9_blank_write_discarded_witness :
    sysStdoutWrite "T" " \t\n\n" c1World = c1World :=
  C9_blank_write_discarded "T" "root" " \t\n\n" Channel.stdout c1World rfl (by decide)

/-- C10: after a successful first initialization, the console handler's
stream is exactly the object `sys.stdout` held before the redirection
(the original stdout, since handlers are installed before
`_capture_prints` replaces the slots with shims), so emitting any record
at any severity writes to the real terminal and never re-enters
`StreamToLogger.write`. -/
theorem C10_no_reentry (app fl cl today cwd : String) (lr : Option String)
    (F C : Nat)
    (hF : parsedFileLevel fl = Except.ok F)
    (hC : parsedConsoleLevel cl = Except.ok C)
    (w : World) (hw : LoggerLHC_init w0 app lr fl cl today cwd = Except.ok w) :
    consoleStreams w.handlers = [w0.sysStdout]
    ∧ w0.sysStdout = StreamVal.orig Channel.stdout
    ∧ w.sysStdout = StreamVal.shim "root" Channel.stdout
    ∧ w.reentered = false
    ∧ ∀ t name s msg, (loggerLog t name s msg w).reentered = false := by
  rw [LoggerLHC_init_ok app fl cl today cwd lr F C hF hC] at hw
  injection hw with h
  subst h
  refine ⟨rfl, rfl, rfl, rfl, ?_⟩
  intro t name s msg
  by_cases hroot : (initedWorld app lr F C today cwd).rootLevel ≤ s
  · rw [loggerLog_two_handlers t name msg (logFileOf app lr today cwd) s F C _ rfl hroot]
    rfl
  · rw [loggerLog, if_neg hroot]
    rfl

/-- Witness for C10: in the scenario state, an ERROR record routed
through the handlers triggers no interceptor re-entry. -/
theorem C10_no_reentry_witness :
    consoleStreams c1World.handlers = [w0.sysStdout]
    ∧ w0.sysStdout = StreamVal.orig Channel.stdout
    ∧ c1World.sysStdout = StreamVal.shim "root" Channel.stdout
    ∧ c1World.reentered = false
    ∧ ∀ t name s msg, (loggerLog t name s msg c1World).reentered = false :=
  C10_no_reentry "app" "debug" "info" "2026-10-12" "/cwd" (some "/tmp/x")
    DEBUG INFO rfl rfl c1World rfl

end LogLaplace
